import Mathlib

/-!
Shallow embedding of the Best Buy store management core
(`products.py`, `promotions.py`, `store.py`).

Numeric conventions: Python `float` prices are modelled as `ℚ` (exact
arithmetic over the same formulas), Python `int` quantities as `ℤ`.
Python floor division `//` is `Int.fdiv` and `%` is `Int.fmod`, the
floor-convention pair that matches Python on all signs.  A Python
`raise ValueError(...)` is an `Except.error` carrying a constructor per
raise site; mutation of `self` becomes explicit state passing: each
method returns the updated product together with its result.
-/

/-- Raise sites of `ValueError` across the repository, one constructor per
`raise` statement, with the data interpolated into the message as payload. -/
inductive ValueErr
  | emptyName
  | negativePrice
  | negativeQuantity
  | invalidQuantity
  | inactiveProduct
  | insufficientStock (available : ℤ)
  | purchaseLimit (maximum : ℤ)
  deriving DecidableEq, Repr

/-- The three concrete `Promotion` subclasses of `promotions.py`; each
carries the `name` given to `Promotion.__init__`, and `PercentDiscount`
its `percent` parameter. -/
inductive Promotion
  | percentDiscount (name : String) (percent : ℚ)
  | secondHalfPrice (name : String)
  | thirdOneFree (name : String)
  deriving DecidableEq, Repr

/-- Which subclass of `Product` an object is an instance of: the base
class itself, `NonStockedProduct`, or `LimitedProduct` (which adds the
`maximum` attribute). -/
inductive ProductKind
  | standard
  | nonStocked
  | limited (maximum : ℤ)
  deriving DecidableEq, Repr

/-- `True` for the stocked variants (base `Product` and `LimitedProduct`),
`false` for `NonStockedProduct`. -/
def ProductKind.isStocked : ProductKind → Bool
  | .nonStocked => false
  | _ => true

/-- The attribute state of a `Product` object set up by
`Product.__init__`, together with its dynamic class. -/
structure Product where
  kind : ProductKind
  name : String
  price : ℚ
  quantity : ℤ
  active : Bool
  promotion : Option Promotion
  deriving DecidableEq, Repr

/-- `Product.__init__` (products.py lines 15-42): validates name, price
and quantity, then sets `active` from `quantity > 0` and `promotion`
to `None`.  The dynamic class is passed in by the subclass constructors. -/
def Product.init (kind : ProductKind) (name : String) (price : ℚ)
    (quantity : ℤ) : Except ValueErr Product :=
  if name = "" then Except.error ValueErr.emptyName
  else if price < 0 then Except.error ValueErr.negativePrice
  else if quantity < 0 then Except.error ValueErr.negativeQuantity
  else Except.ok
    { kind := kind, name := name, price := price, quantity := quantity,
      active := decide (0 < quantity), promotion := none }

/-- `NonStockedProduct.__init__` (lines 154-160): calls the base
constructor with quantity 0, then overrides `active` to `True`. -/
def NonStockedProduct.init (name : String) (price : ℚ) :
    Except ValueErr Product :=
  match Product.init ProductKind.nonStocked name price 0 with
  | Except.ok p => Except.ok { p with active := true }
  | Except.error e => Except.error e

/-- `LimitedProduct.__init__` (lines 197-210): base constructor plus the
`maximum` attribute (recorded in the kind). -/
def LimitedProduct.init (name : String) (price : ℚ) (quantity : ℤ)
    (maximum : ℤ) : Except ValueErr Product :=
  Product.init (ProductKind.limited maximum) name price quantity

/-- `Product.get_quantity` (lines 44-48). -/
def Product.get_quantity (p : Product) : ℤ := p.quantity

/-- `Product.is_active` (lines 60-64). -/
def Product.is_active (p : Product) : Bool := p.active

/-- `Product.activate` (lines 66-70): unconditionally sets `active`. -/
def Product.activate (p : Product) : Product := { p with active := true }

/-- `Product.deactivate` (lines 72-76): unconditionally clears `active`. -/
def Product.deactivate (p : Product) : Product := { p with active := false }

/-- `Product.set_promotion` (lines 84-88): stores the promotion
(`none` removes it). -/
def Product.set_promotion (p : Product) (promotion : Option Promotion) :
    Product := { p with promotion := promotion }

/-- `Product.get_promotion` (lines 78-82). -/
def Product.get_promotion (p : Product) : Option Promotion := p.promotion

/-- `set_quantity`, dispatched on the dynamic class: the base method
(lines 50-58) stores the quantity and calls `deactivate` when it is 0;
`NonStockedProduct.set_quantity` (lines 162-167) is `pass`. -/
def Product.set_quantity (p : Product) (quantity : ℤ) : Product :=
  match p.kind with
  | ProductKind.nonStocked => p
  | _ =>
    let p2 : Product := { p with quantity := quantity }
    if p2.quantity = 0 then p2.deactivate else p2

/-- `PercentDiscount.apply_promotion` (promotions.py lines 46-55),
`SecondHalfPrice.apply_promotion` (lines 64-77) and
`ThirdOneFree.apply_promotion` (lines 86-94).  Each reads only
`product.price`. -/
def Promotion.apply_promotion (promo : Promotion) (product : Product)
    (quantity : ℤ) : ℚ :=
  match promo with
  | Promotion.percentDiscount _ percent =>
    let total_price : ℚ := product.price * (quantity : ℚ)
    let discount_multiplier : ℚ := (100 - percent) / 100
    total_price * discount_multiplier
  | Promotion.secondHalfPrice _ =>
    let full_price_items : ℤ := (quantity + 1).fdiv 2
    let half_price_items : ℤ := quantity.fdiv 2
    (full_price_items : ℚ) * product.price
      + (half_price_items : ℚ) * product.price * (1 / 2)
  | Promotion.thirdOneFree _ =>
    let paid_items : ℤ := quantity.fdiv 3 * 2 + quantity.fmod 3
    (paid_items : ℚ) * product.price

/-- The "calculate price with promotion if exists" step shared verbatim
by `Product.buy` (lines 132-138) and `NonStockedProduct.buy`
(lines 182-186). -/
def Product.promoTotal (p : Product) (quantity : ℤ) : ℚ :=
  match p.promotion with
  | some promo => promo.apply_promotion p quantity
  | none => p.price * (quantity : ℚ)

/-- The base-class `Product.buy` body (lines 114-145): quantity, activity
and stock checks, promotion pricing, then `set_quantity` on the
decremented stock.  Returns the raised error or the total price, paired
with the object state when control leaves the method. -/
def Product.baseBuy (p : Product) (quantity : ℤ) :
    Except ValueErr ℚ × Product :=
  if quantity ≤ 0 then (Except.error ValueErr.invalidQuantity, p)
  else if p.active = false then (Except.error ValueErr.inactiveProduct, p)
  else if p.quantity < quantity then
    (Except.error (ValueErr.insufficientStock p.quantity), p)
  else
    let total_price := p.promoTotal quantity
    let new_quantity := p.quantity - quantity
    (Except.ok total_price, p.set_quantity new_quantity)

/-- `buy`, dispatched on the dynamic class: the base method for plain
products, `NonStockedProduct.buy` (lines 176-188, no activity or stock
check, no mutation) and `LimitedProduct.buy` (lines 219-228, maximum
check before delegating to the base method). -/
def Product.buy (p : Product) (quantity : ℤ) : Except ValueErr ℚ × Product :=
  match p.kind with
  | ProductKind.standard => p.baseBuy quantity
  | ProductKind.nonStocked =>
    if quantity ≤ 0 then (Except.error ValueErr.invalidQuantity, p)
    else (Except.ok (p.promoTotal quantity), p)
  | ProductKind.limited maximum =>
    if maximum < quantity then
      (Except.error (ValueErr.purchaseLimit maximum), p)
    else p.baseBuy quantity

/-- `Store.order` (store.py lines 56-80): folds over the shopping list,
calling `buy` on each item; a caught `ValueError` is printed and the
item contributes nothing.  The mutation each `buy` performs on its
product object is returned as the per-item post-state list. -/
def Store.order (shopping_list : List (Product × ℤ)) : ℚ × List Product :=
  shopping_list.foldl
    (fun acc item =>
      match (item.1).buy item.2 with
      | (Except.ok item_price, p2) => (acc.1 + item_price, acc.2 ++ [p2])
      | (Except.error _, p2) => (acc.1, acc.2 ++ [p2]))
    (0, [])

/-- One mutating call through the public `Product` interface. -/
inductive ProdOp
  | buyOp (quantity : ℤ)
  | setQuantityOp (quantity : ℤ)
  | activateOp
  | deactivateOp
  | setPromotionOp (promotion : Option Promotion)
  deriving DecidableEq, Repr

/-- Applies one public operation to a product, keeping the state it
leaves behind (for `buy`, whether it raises or returns). -/
def Product.applyOp (p : Product) : ProdOp → Product
  | ProdOp.buyOp q => (p.buy q).2
  | ProdOp.setQuantityOp q => p.set_quantity q
  | ProdOp.activateOp => p.activate
  | ProdOp.deactivateOp => p.deactivate
  | ProdOp.setPromotionOp promo => p.set_promotion promo

/-- Runs a sequence of public operations left to right. -/
def Product.runOps (p : Product) (ops : List ProdOp) : Product :=
  ops.foldl Product.applyOp p

/-- `True` when the operation is a purchase or a `set_quantity` call. -/
def ProdOp.isPurchaseOrSetQuantity : ProdOp → Bool
  | ProdOp.buyOp _ => true
  | ProdOp.setQuantityOp _ => true
  | _ => false

/-- The spec formula for `PercentDiscount`, written from its words:
"total × (100-percent)/100" over unit price times quantity. -/
def percentDiscountSpec (percent unitPrice : ℚ) (quantity : ℤ) : ℚ :=
  unitPrice * (quantity : ℚ) * (100 - percent) / 100

/-- The spec formula for `SecondHalfPrice`, written from its words:
"ceil(qty/2) at full price + floor(qty/2) at half price". -/
def secondHalfPriceSpec (unitPrice : ℚ) (quantity : ℤ) : ℚ :=
  (⌈(quantity : ℚ) / 2⌉ : ℚ) * unitPrice
    + (⌊(quantity : ℚ) / 2⌋ : ℚ) * unitPrice / 2

/-- The spec formula for `ThirdOneFree`, written from its words:
"pay for qty − floor(qty/3) units". -/
def thirdOneFreeSpec (unitPrice : ℚ) (quantity : ℤ) : ℚ :=
  ((quantity : ℚ) - (⌊(quantity : ℚ) / 3⌋ : ℚ)) * unitPrice

lemma floor_ratCast_half (q : ℤ) : ⌊(q : ℚ) / 2⌋ = q.fdiv 2 := by
  rw [Int.fdiv_eq_ediv q (by norm_num)]
  have h := Rat.floor_intCast_div_natCast q 2
  push_cast at h
  exact h

lemma floor_ratCast_third (q : ℤ) : ⌊(q : ℚ) / 3⌋ = q.fdiv 3 := by
  rw [Int.fdiv_eq_ediv q (by norm_num)]
  have h := Rat.floor_intCast_div_natCast q 3
  push_cast at h
  exact h

lemma ceil_ratCast_half (q : ℤ) : ⌈(q : ℚ) / 2⌉ = (q + 1).fdiv 2 := by
  rw [Int.fdiv_eq_ediv _ (by norm_num), Int.ceil_eq_iff]
  have h := Int.ediv_add_emod (q + 1) 2
  have h1 : 0 ≤ (q + 1) % 2 := Int.emod_nonneg _ (by norm_num)
  have h2 : (q + 1) % 2 < 2 := Int.emod_lt_of_pos _ (by norm_num)
  have hA : 2 * ((q + 1) / 2) - 2 < q := by omega
  have hB : q ≤ 2 * ((q + 1) / 2) := by omega
  have hA2 : ((2 * ((q + 1) / 2) - 2 : ℤ) : ℚ) < (q : ℚ) := by exact_mod_cast hA
  have hB2 : ((q : ℤ) : ℚ) ≤ ((2 * ((q + 1) / 2) : ℤ) : ℚ) := by exact_mod_cast hB
  push_cast at hA2 hB2
  constructor
  · linarith
  · linarith

lemma thirdOneFree_paid_items (q : ℤ) :
    q.fdiv 3 * 2 + q.fmod 3 = q - q.fdiv 3 := by
  rw [Int.fdiv_eq_ediv _ (by norm_num), Int.fmod_eq_emod _ (by norm_num)]
  omega

/-- C6: each Promotion variant's `apply_promotion(product, quantity)`
equals the spec's pure formula over the product's unit price and the
quantity: `PercentDiscount(percent)` gives `unitPrice * quantity *
(100 - percent) / 100`; `SecondHalfPrice` gives `ceil(quantity/2) *
unitPrice + floor(quantity/2) * unitPrice / 2`; `ThirdOneFree` gives
`(quantity - floor(quantity/3)) * unitPrice`. -/
theorem apply_promotion_matches_spec (product : Product) (quantity : ℤ)
    (name : String) (percent : ℚ) :
    (Promotion.percentDiscount name percent).apply_promotion product quantity
        = percentDiscountSpec percent product.price quantity
  ∧ (Promotion.secondHalfPrice name).apply_promotion product quantity
        = secondHalfPriceSpec product.price quantity
  ∧ (Promotion.thirdOneFree name).apply_promotion product quantity
        = thirdOneFreeSpec product.price quantity := by
  refine ⟨?_, ?_, ?_⟩
  · show product.price * (quantity : ℚ) * ((100 - percent) / 100)
        = percentDiscountSpec percent product.price quantity
    unfold percentDiscountSpec
    ring
  · show (((quantity + 1).fdiv 2 : ℤ) : ℚ) * product.price
        + ((quantity.fdiv 2 : ℤ) : ℚ) * product.price * (1 / 2)
        = secondHalfPriceSpec product.price quantity
    unfold secondHalfPriceSpec
    rw [ceil_ratCast_half, floor_ratCast_half]
    ring
  · show ((quantity.fdiv 3 * 2 + quantity.fmod 3 : ℤ) : ℚ) * product.price
        = thirdOneFreeSpec product.price quantity
    unfold thirdOneFreeSpec
    rw [floor_ratCast_third]
    have h : ((quantity.fdiv 3 * 2 + quantity.fmod 3 : ℤ) : ℚ)
        = (quantity : ℚ) - ((quantity.fdiv 3 : ℤ) : ℚ) := by
      exact_mod_cast congrArg (fun z : ℤ => (z : ℚ)) (thirdOneFree_paid_items quantity)
    rw [h]

lemma set_quantity_kind (p : Product) (q : ℤ) :
    (p.set_quantity q).kind = p.kind := by
  unfold Product.set_quantity
  cases hkind : p.kind
  · simp only [Product.deactivate]
    split_ifs <;> rfl
  · exact hkind
  · simp only [Product.deactivate]
    split_ifs <;> rfl

lemma set_quantity_promotion (p : Product) (q : ℤ) :
    (p.set_quantity q).promotion = p.promotion := by
  unfold Product.set_quantity
  cases hkind : p.kind
  · simp only [Product.deactivate]
    split_ifs <;> rfl
  · rfl
  · simp only [Product.deactivate]
    split_ifs <;> rfl

lemma set_quantity_price (p : Product) (q : ℤ) :
    (p.set_quantity q).price = p.price := by
  unfold Product.set_quantity
  cases hkind : p.kind
  · simp only [Product.deactivate]
    split_ifs <;> rfl
  · rfl
  · simp only [Product.deactivate]
    split_ifs <;> rfl

lemma set_quantity_name (p : Product) (q : ℤ) :
    (p.set_quantity q).name = p.name := by
  unfold Product.set_quantity
  cases hkind : p.kind
  · simp only [Product.deactivate]
    split_ifs <;> rfl
  · rfl
  · simp only [Product.deactivate]
    split_ifs <;> rfl

lemma set_quantity_quantity (p : Product) (q : ℤ)
    (hk : p.kind.isStocked = true) : (p.set_quantity q).quantity = q := by
  unfold Product.set_quantity
  cases hkind : p.kind
  · simp only [Product.deactivate]
    split_ifs <;> rfl
  · rw [hkind] at hk
    simp [ProductKind.isStocked] at hk
  · simp only [Product.deactivate]
    split_ifs <;> rfl

lemma set_quantity_active (p : Product) (q : ℤ)
    (hk : p.kind.isStocked = true) :
    (p.set_quantity q).active = (if q = 0 then false else p.active) := by
  unfold Product.set_quantity
  cases hkind : p.kind
  · simp only [Product.deactivate]
    split_ifs <;> rfl
  · rw [hkind] at hk
    simp [ProductKind.isStocked] at hk
  · simp only [Product.deactivate]
    split_ifs <;> rfl

lemma set_quantity_of_nonStocked (p : Product) (q : ℤ)
    (hk : p.kind = ProductKind.nonStocked) : p.set_quantity q = p := by
  unfold Product.set_quantity
  rw [hk]

lemma baseBuy_invalid (p : Product) (q : ℤ) (hq : q ≤ 0) :
    p.baseBuy q = (Except.error ValueErr.invalidQuantity, p) := by
  unfold Product.baseBuy
  rw [if_pos hq]

lemma baseBuy_inactive (p : Product) (q : ℤ) (hq : 0 < q)
    (ha : p.active = false) :
    p.baseBuy q = (Except.error ValueErr.inactiveProduct, p) := by
  unfold Product.baseBuy
  rw [if_neg (not_le.mpr hq), if_pos ha]

lemma baseBuy_insufficient (p : Product) (q : ℤ) (hq : 0 < q)
    (ha : p.active = true) (hs : p.quantity < q) :
    p.baseBuy q = (Except.error (ValueErr.insufficientStock p.quantity), p) := by
  unfold Product.baseBuy
  rw [if_neg (not_le.mpr hq), if_neg (by simp [ha]), if_pos hs]

lemma baseBuy_success (p : Product) (q : ℤ) (hq : 0 < q)
    (ha : p.active = true) (hs : q ≤ p.quantity) :
    p.baseBuy q =
      (Except.ok (p.promoTotal q), p.set_quantity (p.quantity - q)) := by
  unfold Product.baseBuy
  rw [if_neg (not_le.mpr hq), if_neg (by simp [ha]), if_neg (not_lt.mpr hs)]

lemma buy_of_standard (p : Product) (q : ℤ)
    (hk : p.kind = ProductKind.standard) : p.buy q = p.baseBuy q := by
  unfold Product.buy
  rw [hk]

lemma buy_of_nonStocked (p : Product) (q : ℤ)
    (hk : p.kind = ProductKind.nonStocked) :
    p.buy q = if q ≤ 0 then (Except.error ValueErr.invalidQuantity, p)
      else (Except.ok (p.promoTotal q), p) := by
  unfold Product.buy
  rw [hk]

lemma buy_of_limited (p : Product) (q M : ℤ)
    (hk : p.kind = ProductKind.limited M) :
    p.buy q = if M < q then (Except.error (ValueErr.purchaseLimit M), p)
      else p.baseBuy q := by
  unfold Product.buy
  rw [hk]

lemma baseBuy_error_snd (p : Product) (q : ℤ) (e : ValueErr)
    (h : (p.baseBuy q).1 = Except.error e) : (p.baseBuy q).2 = p := by
  unfold Product.baseBuy at h ⊢
  split_ifs at h ⊢ <;> simp_all

lemma buy_error_snd (p : Product) (q : ℤ) (e : ValueErr)
    (h : (p.buy q).1 = Except.error e) : (p.buy q).2 = p := by
  cases hkind : p.kind
  · rw [buy_of_standard p q hkind] at h ⊢
    exact baseBuy_error_snd p q e h
  · rw [buy_of_nonStocked p q hkind] at h ⊢
    by_cases hq : q ≤ 0
    · rw [if_pos hq]
    · rw [if_neg hq] at h
      simp at h
  · rename_i M
    rw [buy_of_limited p q M hkind] at h ⊢
    by_cases hM : M < q
    · rw [if_pos hM]
    · rw [if_neg hM] at h ⊢
      exact baseBuy_error_snd p q e h

/-- C2: a Standard Product with stock S, active, and no promotion, bought
with 1 <= q <= S, succeeds returning `unit_price * q`; afterwards the
quantity is S - q, and if S - q = 0 the product is no longer active. -/
theorem standard_purchase_success (p : Product) (q : ℤ)
    (hk : p.kind = ProductKind.standard) (ha : p.active = true)
    (hpromo : p.promotion = none) (h1 : 1 ≤ q) (h2 : q ≤ p.quantity) :
    (p.buy q).1 = Except.ok (p.price * (q : ℚ))
  ∧ (p.buy q).2.get_quantity = p.quantity - q
  ∧ (p.quantity - q = 0 → (p.buy q).2.is_active = false) := by
  have hq : 0 < q := by omega
  rw [buy_of_standard p q hk, baseBuy_success p q hq ha h2]
  refine ⟨?_, ?_, ?_⟩
  · simp [Product.promoTotal, hpromo]
  · simp [Product.get_quantity, set_quantity_quantity _ _ (by rw [hk]; rfl)]
  · intro h0
    simp [Product.is_active, set_quantity_active _ _ (by rw [hk]; rfl), h0]

def wProdC2 : Product :=
  { kind := ProductKind.standard, name := "MacBook Air M2", price := 1450,
    quantity := 100, active := true, promotion := none }

theorem standard_purchase_success_witness :
    (wProdC2.buy 100).1 = Except.ok (wProdC2.price * (100 : ℚ))
  ∧ (wProdC2.buy 100).2.get_quantity = wProdC2.quantity - 100
  ∧ (wProdC2.buy 100).2.is_active = false :=
  ⟨(standard_purchase_success wProdC2 100 rfl rfl rfl (by decide)
      (by decide)).1,
   (standard_purchase_success wProdC2 100 rfl rfl rfl (by decide)
      (by decide)).2.1,
   (standard_purchase_success wProdC2 100 rfl rfl rfl (by decide)
      (by decide)).2.2 (by decide)⟩

/-- C3: a Standard Product purchase fails exactly when q <= 0 (invalid
quantity), the product is inactive, or q exceeds the stock; the error is
the one matching the first failing check, and every failing purchase
leaves the product state completely unchanged. -/
theorem standard_purchase_failure_cases (p : Product) (q : ℤ)
    (hk : p.kind = ProductKind.standard) :
    ((∃ e, (p.buy q).1 = Except.error e) ↔
        (q ≤ 0 ∨ p.active = false ∨ p.quantity < q))
  ∧ (q ≤ 0 → (p.buy q).1 = Except.error ValueErr.invalidQuantity)
  ∧ (0 < q → p.active = false →
      (p.buy q).1 = Except.error ValueErr.inactiveProduct)
  ∧ (0 < q → p.active = true → p.quantity < q →
      (p.buy q).1 = Except.error (ValueErr.insufficientStock p.quantity))
  ∧ (∀ e, (p.buy q).1 = Except.error e → (p.buy q).2 = p) := by
  rw [buy_of_standard p q hk]
  refine ⟨⟨?_, ?_⟩, ?_, ?_, ?_, ?_⟩
  · rintro ⟨e, he⟩
    by_contra hcon
    push_neg at hcon
    obtain ⟨hq, hact, hs⟩ := hcon
    have hq2 : 0 < q := by omega
    have hact2 : p.active = true := by
      cases hA : p.active
      · exact absurd hA hact
      · rfl
    have hs2 : q ≤ p.quantity := by omega
    rw [baseBuy_success p q hq2 hact2 hs2] at he
    simp at he
  · intro hdisj
    by_cases hq : q ≤ 0
    · exact ⟨_, by rw [baseBuy_invalid p q hq]⟩
    · have hq2 : 0 < q := by omega
      by_cases hact : p.active = false
      · exact ⟨_, by rw [baseBuy_inactive p q hq2 hact]⟩
      · have hact2 : p.active = true := by
          cases hA : p.active
          · exact absurd hA hact
          · rfl
        have hs : p.quantity < q := by
          rcases hdisj with h | h | h
          · omega
          · exact absurd h hact
          · exact h
        exact ⟨_, by rw [baseBuy_insufficient p q hq2 hact2 hs]⟩
  · intro hq
    rw [baseBuy_invalid p q hq]
  · intro hq hact
    rw [baseBuy_inactive p q hq hact]
  · intro hq hact hs
    rw [baseBuy_insufficient p q hq hact hs]
  · intro e he
    exact baseBuy_error_snd p q e he

def wProdC3 : Product :=
  { kind := ProductKind.standard, name := "Google Pixel 7", price := 500,
    quantity := 5, active := true, promotion := none }

theorem standard_purchase_failure_witness :
    (wProdC3.buy 7).1
        = Except.error (ValueErr.insufficientStock wProdC3.quantity)
  ∧ (wProdC3.buy 7).2 = wProdC3 :=
  ⟨(standard_purchase_failure_cases wProdC3 7 rfl).2.2.2.1 (by decide) rfl
      (by decide),
   (standard_purchase_failure_cases wProdC3 7 rfl).2.2.2.2 _
      ((standard_purchase_failure_cases wProdC3 7 rfl).2.2.2.1 (by decide) rfl
        (by decide))⟩

/-- C4: a LimitedProduct with per-order maximum M rejects any quantity
above M with the purchase-limit error, before any base purchase rule is
evaluated (whatever the quantity sign, activity or stock); and with the
product active and stock at least M >= 1, buying exactly M succeeds. -/
theorem limited_purchase_maximum (p : Product) (M : ℤ)
    (hk : p.kind = ProductKind.limited M) :
    (∀ q, M < q → p.buy q = (Except.error (ValueErr.purchaseLimit M), p))
  ∧ (p.active = true → 1 ≤ M → M ≤ p.quantity →
      (p.buy M).1 = Except.ok (p.promoTotal M)) := by
  constructor
  · intro q hq
    rw [buy_of_limited p q M hk, if_pos hq]
  · intro ha h1 h2
    rw [buy_of_limited p M M hk, if_neg (lt_irrefl M),
      baseBuy_success p M (by omega) ha h2]

def wProdC4 : Product :=
  { kind := ProductKind.limited 1, name := "Shipping", price := 10,
    quantity := 250, active := true, promotion := none }

theorem limited_purchase_maximum_witness :
    wProdC4.buy 2 = (Except.error (ValueErr.purchaseLimit 1), wProdC4)
  ∧ (wProdC4.buy 1).1 = Except.ok (wProdC4.promoTotal 1) :=
  ⟨(limited_purchase_maximum wProdC4 1 rfl).1 2 (by decide),
   (limited_purchase_maximum wProdC4 1 rfl).2 rfl (by decide) (by decide)⟩

lemma order_foldl_general (l : List (Product × ℤ)) (t : ℚ)
    (acc : List Product) :
    l.foldl
      (fun acc item =>
        match (item.1).buy item.2 with
        | (Except.ok item_price, p2) => (acc.1 + item_price, acc.2 ++ [p2])
        | (Except.error _, p2) => (acc.1, acc.2 ++ [p2]))
      (t, acc)
    = (t + (l.map fun item =>
          match (item.1.buy item.2).1 with
          | Except.ok tp => tp
          | Except.error _ => (0 : ℚ)).sum,
       acc ++ l.map fun item =>
          match (item.1.buy item.2).1 with
          | Except.ok _ => (item.1.buy item.2).2
          | Except.error _ => item.1) := by
  induction l generalizing t acc with
  | nil => simp
  | cons hd tl ih =>
    simp only [List.foldl_cons, List.map_cons, List.sum_cons]
    rcases hbuy : hd.1.buy hd.2 with ⟨r, p2⟩
    cases r with
    | ok tp =>
      simp [ih, add_assoc]
    | error e =>
      have hsnd : p2 = hd.1 := by
        have h1 : (hd.1.buy hd.2).1 = Except.error e := by rw [hbuy]
        have h2 := buy_error_snd hd.1 hd.2 e h1
        rw [hbuy] at h2
        exact h2
      simp [ih, hsnd]

/-- C1: `Store.order` never propagates a purchase error: its result is the
sum, in list order, of the totals of exactly the items whose `buy`
succeeds; a failing item contributes 0 and its product state is returned
unchanged, and the remaining items are still processed.  (In particular a
3-item order whose middle item fails completes items 1 and 3 and returns
their combined total.) -/
theorem order_best_effort (l : List (Product × ℤ)) :
    Store.order l
      = ((l.map fun item =>
            match (item.1.buy item.2).1 with
            | Except.ok t => t
            | Except.error _ => (0 : ℚ)).sum,
         l.map fun item =>
            match (item.1.buy item.2).1 with
            | Except.ok _ => (item.1.buy item.2).2
            | Except.error _ => item.1) := by
  unfold Store.order
  rw [order_foldl_general l 0 []]
  simp

lemma buy_nonStocked_snd (p : Product) (q : ℤ)
    (hk : p.kind = ProductKind.nonStocked) : (p.buy q).2 = p := by
  rw [buy_of_nonStocked p q hk]
  split_ifs <;> rfl

lemma runOps_nonStocked_id (p : Product)
    (hk : p.kind = ProductKind.nonStocked) :
    ∀ ops : List ProdOp, (∀ op ∈ ops, op.isPurchaseOrSetQuantity = true) →
      p.runOps ops = p := by
  intro ops
  induction ops with
  | nil => intro _; rfl
  | cons hd tl ih =>
    intro hops
    have hhd := hops hd (List.mem_cons_self _ _)
    have hstep : p.applyOp hd = p := by
      cases hd with
      | buyOp q => exact buy_nonStocked_snd p q hk
      | setQuantityOp q => exact set_quantity_of_nonStocked p q hk
      | activateOp => simp [ProdOp.isPurchaseOrSetQuantity] at hhd
      | deactivateOp => simp [ProdOp.isPurchaseOrSetQuantity] at hhd
      | setPromotionOp promo => simp [ProdOp.isPurchaseOrSetQuantity] at hhd
    show (p.applyOp hd).runOps tl = p
    rw [hstep]
    exact ih fun op hop => hops op (List.mem_cons_of_mem _ hop)

lemma nonStockedInit_ok (name : String) (price : ℚ) (p0 : Product)
    (h : NonStockedProduct.init name price = Except.ok p0) :
    p0 = { kind := ProductKind.nonStocked, name := name, price := price,
           quantity := 0, active := true, promotion := none } := by
  unfold NonStockedProduct.init Product.init at h
  split_ifs at h
  all_goals simp_all

/-- C5: a `NonStockedProduct`, under any sequence of purchases and
`set_quantity` calls, keeps quantity 0 and stays active; a purchase never
mutates it, and a purchase of any positive quantity succeeds with total
`unit_price * q` (its promotion is still the `None` set at construction). -/
theorem nonStocked_invariants (name : String) (price : ℚ) (p0 : Product)
    (h : NonStockedProduct.init name price = Except.ok p0)
    (ops : List ProdOp)
    (hops : ∀ op ∈ ops, op.isPurchaseOrSetQuantity = true) :
    (p0.runOps ops).get_quantity = 0
  ∧ (p0.runOps ops).is_active = true
  ∧ (∀ q, ((p0.runOps ops).buy q).2 = p0.runOps ops)
  ∧ (∀ q, 0 < q →
      ((p0.runOps ops).buy q).1 = Except.ok (price * (q : ℚ))) := by
  have hchar := nonStockedInit_ok name price p0 h
  subst hchar
  have hk : (ProductKind.nonStocked).isStocked = false := rfl
  rw [runOps_nonStocked_id _ rfl ops hops]
  refine ⟨rfl, rfl, ?_, ?_⟩
  · intro q
    exact buy_nonStocked_snd _ q rfl
  · intro q hq
    rw [buy_of_nonStocked _ q rfl, if_neg (not_le.mpr hq)]
    rfl

def wProdC5 : Product :=
  { kind := ProductKind.nonStocked, name := "Windows License", price := 125,
    quantity := 0, active := true, promotion := none }

theorem nonStocked_invariants_witness :
    (wProdC5.runOps [ProdOp.buyOp 3, ProdOp.setQuantityOp 7]).get_quantity = 0
  ∧ (wProdC5.runOps [ProdOp.buyOp 3, ProdOp.setQuantityOp 7]).is_active = true
  ∧ ((wProdC5.runOps [ProdOp.buyOp 3, ProdOp.setQuantityOp 7]).buy 3).1
      = Except.ok ((125 : ℚ) * ((3 : ℤ) : ℚ)) :=
  ⟨(nonStocked_invariants "Windows License" 125 wProdC5 rfl
      [ProdOp.buyOp 3, ProdOp.setQuantityOp 7] (by decide)).1,
   (nonStocked_invariants "Windows License" 125 wProdC5 rfl
      [ProdOp.buyOp 3, ProdOp.setQuantityOp 7] (by decide)).2.1,
   (nonStocked_invariants "Windows License" 125 wProdC5 rfl
      [ProdOp.buyOp 3, ProdOp.setQuantityOp 7] (by decide)).2.2.2 3
      (by decide)⟩

/-- The state predicate of the spec's §3 invariant for one product:
a zero quantity implies the product is inactive. -/
def zeroImpliesInactive (p : Product) : Prop :=
  p.quantity = 0 → p.active = false

lemma baseBuy_snd_kind (p : Product) (q : ℤ) :
    (p.baseBuy q).2.kind = p.kind := by
  unfold Product.baseBuy
  split_ifs <;> simp [set_quantity_kind]

lemma buy_snd_kind (p : Product) (q : ℤ) : (p.buy q).2.kind = p.kind := by
  cases hkind : p.kind
  · rw [buy_of_standard p q hkind, baseBuy_snd_kind p q]
    exact hkind
  · rw [buy_of_nonStocked p q hkind]
    split_ifs
    · exact hkind
    · exact hkind
  · rename_i M
    rw [buy_of_limited p q M hkind]
    split_ifs
    · exact hkind
    · rw [baseBuy_snd_kind p q]
      exact hkind

lemma applyOp_kind (p : Product) (op : ProdOp) :
    (p.applyOp op).kind = p.kind := by
  cases op with
  | buyOp q => exact buy_snd_kind p q
  | setQuantityOp q => exact set_quantity_kind p q
  | activateOp => rfl
  | deactivateOp => rfl
  | setPromotionOp promo => rfl

lemma set_quantity_zeroInactive (p : Product) (q : ℤ)
    (hk : p.kind.isStocked = true) :
    zeroImpliesInactive (p.set_quantity q) := by
  intro h0
  rw [set_quantity_quantity p q hk] at h0
  rw [set_quantity_active p q hk, if_pos h0]

lemma baseBuy_zeroInactive (p : Product) (q : ℤ)
    (hk : p.kind.isStocked = true) (hp : zeroImpliesInactive p) :
    zeroImpliesInactive (p.baseBuy q).2 := by
  unfold Product.baseBuy
  split_ifs
  · exact hp
  · exact hp
  · exact hp
  · exact set_quantity_zeroInactive p _ hk

lemma buy_zeroInactive (p : Product) (q : ℤ)
    (hk : p.kind.isStocked = true) (hp : zeroImpliesInactive p) :
    zeroImpliesInactive (p.buy q).2 := by
  cases hkind : p.kind
  · rw [buy_of_standard p q hkind]
    exact baseBuy_zeroInactive p q hk hp
  · rw [hkind] at hk
    simp [ProductKind.isStocked] at hk
  · rename_i M
    rw [buy_of_limited p q M hkind]
    split_ifs
    · exact hp
    · exact baseBuy_zeroInactive p q hk hp

lemma applyOp_zeroInactive (p : Product) (op : ProdOp)
    (hk : p.kind.isStocked = true) (hop : op ≠ ProdOp.activateOp)
    (hp : zeroImpliesInactive p) : zeroImpliesInactive (p.applyOp op) := by
  cases op with
  | buyOp q => exact buy_zeroInactive p q hk hp
  | setQuantityOp q => exact set_quantity_zeroInactive p q hk
  | activateOp => exact absurd rfl hop
  | deactivateOp => intro _; rfl
  | setPromotionOp promo => intro h0; exact hp h0

lemma runOps_zeroInactive :
    ∀ (ops : List ProdOp) (p : Product), p.kind.isStocked = true →
      zeroImpliesInactive p → ProdOp.activateOp ∉ ops →
      zeroImpliesInactive (p.runOps ops) := by
  intro ops
  induction ops with
  | nil => intro p _ hp _; exact hp
  | cons hd tl ih =>
    intro p hk hp hmem
    have hhd : hd ≠ ProdOp.activateOp := by
      intro hcon
      exact hmem (by rw [← hcon]; exact List.mem_cons_self hd tl)
    show zeroImpliesInactive ((p.applyOp hd).runOps tl)
    refine ih (p.applyOp hd) ?_ ?_ ?_
    · rw [applyOp_kind]
      exact hk
    · exact applyOp_zeroInactive p hd hk hhd hp
    · intro hcon
      exact hmem (List.mem_cons_of_mem hd hcon)

lemma productInit_ok (kind : ProductKind) (name : String) (price : ℚ)
    (quantity : ℤ) (p0 : Product)
    (h : Product.init kind name price quantity = Except.ok p0) :
    p0 = { kind := kind, name := name, price := price, quantity := quantity,
           active := decide (0 < quantity), promotion := none } := by
  unfold Product.init at h
  split_ifs at h
  all_goals simp_all

def cexStdC7 : Product :=
  { kind := ProductKind.standard, name := "Widget", price := 10, quantity := 1,
    active := true, promotion := none }

def cexNsC7 : Product :=
  { kind := ProductKind.nonStocked, name := "License", price := 125,
    quantity := 0, active := true, promotion := none }

/-- C7 fails on the code in two reachable ways: a standard product bought
down to quantity 0 and then explicitly re-activated is active at zero
quantity, and a freshly constructed `NonStockedProduct` is active at its
permanent zero quantity. -/
theorem zero_quantity_active_counterexample :
    Product.init ProductKind.standard "Widget" 10 1 = Except.ok cexStdC7
  ∧ (cexStdC7.runOps [ProdOp.buyOp 1, ProdOp.activateOp]).quantity = 0
  ∧ (cexStdC7.runOps [ProdOp.buyOp 1, ProdOp.activateOp]).active = true
  ∧ NonStockedProduct.init "License" 125 = Except.ok cexNsC7
  ∧ cexNsC7.quantity = 0
  ∧ cexNsC7.active = true := by
  refine ⟨rfl, by decide, by decide, rfl, rfl, rfl⟩

/-- C7 (amended): for Standard and Limited products the invariant
"quantity = 0 implies inactive" holds on every state reachable from
construction through sequences of public operations that never call
`activate()`; it is violated by reachable states of `activate()` (which
re-activates at zero quantity) and by `NonStockedProduct`s (active at
their permanent zero quantity). -/
theorem stocked_zero_quantity_inactive (kind : ProductKind) (name : String)
    (price : ℚ) (quantity : ℤ) (p0 : Product)
    (hk : kind.isStocked = true)
    (h : Product.init kind name price quantity = Except.ok p0)
    (ops : List ProdOp) (hops : ProdOp.activateOp ∉ ops) :
    (p0.runOps ops).quantity = 0 → (p0.runOps ops).active = false := by
  have hchar := productInit_ok kind name price quantity p0 h
  subst hchar
  refine runOps_zeroInactive ops _ hk ?_ hops
  intro h0
  have h1 : quantity = 0 := h0
  subst h1
  rfl

def wProdC7 : Product :=
  { kind := ProductKind.standard, name := "Bose QuietComfort Earbuds",
    price := 250, quantity := 6, active := true, promotion := none }

theorem stocked_zero_quantity_inactive_witness :
    (wProdC7.runOps [ProdOp.buyOp 6]).active = false :=
  stocked_zero_quantity_inactive ProductKind.standard
    "Bose QuietComfort Earbuds" 250 6 wProdC7 (by decide) rfl
    [ProdOp.buyOp 6] (by decide) (by decide)

lemma baseBuy_inactive_snd (p : Product) (q : ℤ) (ha : p.active = false) :
    (p.baseBuy q).2 = p := by
  by_cases hq : q ≤ 0
  · rw [baseBuy_invalid p q hq]
  · rw [baseBuy_inactive p q (by omega) ha]

lemma buy_inactive_snd (p : Product) (q : ℤ)
    (hk : p.kind.isStocked = true) (ha : p.active = false) :
    (p.buy q).2 = p := by
  cases hkind : p.kind
  · rw [buy_of_standard p q hkind]
    exact baseBuy_inactive_snd p q ha
  · rw [hkind] at hk
    simp [ProductKind.isStocked] at hk
  · rename_i M
    rw [buy_of_limited p q M hkind]
    split_ifs
    · rfl
    · exact baseBuy_inactive_snd p q ha

lemma applyOp_inactive (p : Product) (op : ProdOp)
    (hk : p.kind.isStocked = true) (hop : op ≠ ProdOp.activateOp)
    (ha : p.active = false) : (p.applyOp op).active = false := by
  cases op with
  | buyOp q =>
    show (p.buy q).2.active = false
    rw [buy_inactive_snd p q hk ha]
    exact ha
  | setQuantityOp q =>
    show (p.set_quantity q).active = false
    rw [set_quantity_active p q hk]
    split_ifs
    · rfl
    · exact ha
  | activateOp => exact absurd rfl hop
  | deactivateOp => rfl
  | setPromotionOp promo => exact ha

lemma runOps_inactive :
    ∀ (ops : List ProdOp) (p : Product), p.kind.isStocked = true →
      p.active = false → ProdOp.activateOp ∉ ops →
      (p.runOps ops).active = false := by
  intro ops
  induction ops with
  | nil => intro p _ ha _; exact ha
  | cons hd tl ih =>
    intro p hk ha hmem
    have hhd : hd ≠ ProdOp.activateOp := by
      intro hcon
      exact hmem (by rw [← hcon]; exact List.mem_cons_self hd tl)
    show ((p.applyOp hd).runOps tl).active = false
    refine ih (p.applyOp hd) ?_ ?_ ?_
    · rw [applyOp_kind]
      exact hk
    · exact applyOp_inactive p hd hk hhd ha
    · intro hcon
      exact hmem (List.mem_cons_of_mem hd hcon)

lemma baseBuy_ok_snd (p : Product) (q : ℤ) (t : ℚ) (p2 : Product)
    (h : p.baseBuy q = (Except.ok t, p2)) :
    p2 = p.set_quantity (p.quantity - q) := by
  unfold Product.baseBuy at h
  split_ifs at h <;> simp_all

lemma buy_ok_snd_zeroInactive (p : Product) (q : ℤ) (t : ℚ) (p2 : Product)
    (hk : p.kind.isStocked = true) (hbuy : p.buy q = (Except.ok t, p2)) :
    zeroImpliesInactive p2 := by
  cases hkind : p.kind
  · rw [buy_of_standard p q hkind] at hbuy
    rw [baseBuy_ok_snd p q t p2 hbuy]
    exact set_quantity_zeroInactive p _ hk
  · rw [hkind] at hk
    simp [ProductKind.isStocked] at hk
  · rename_i M
    rw [buy_of_limited p q M hkind] at hbuy
    split_ifs at hbuy
    · simp at hbuy
    · rw [baseBuy_ok_snd p q t p2 hbuy]
      exact set_quantity_zeroInactive p _ hk

/-- C8: a Standard or Limited product that is inactive stays inactive
under any sequence of public operations not containing `activate()`
(in particular under `set_quantity` to a nonzero value and under
purchases); `activate()` makes it active, while `deactivate()`,
`set_quantity(0)` and a successful purchase that empties the stock each
leave it inactive. -/
theorem inactive_only_reactivated_by_activate (p : Product)
    (hk : p.kind.isStocked = true) :
    (∀ ops : List ProdOp, ProdOp.activateOp ∉ ops → p.active = false →
        (p.runOps ops).active = false)
  ∧ (p.activate).active = true
  ∧ (p.deactivate).active = false
  ∧ (p.set_quantity 0).active = false
  ∧ (∀ q t p2, p.buy q = (Except.ok t, p2) → p2.quantity = 0 →
        p2.active = false) := by
  refine ⟨?_, rfl, rfl, ?_, ?_⟩
  · intro ops hops ha
    exact runOps_inactive ops p hk ha hops
  · rw [set_quantity_active p 0 hk]
    simp
  · intro q t p2 hbuy h0
    exact buy_ok_snd_zeroInactive p q t p2 hk hbuy h0

def wProdC8 : Product :=
  { kind := ProductKind.standard, name := "Earbuds", price := 250,
    quantity := 4, active := false, promotion := none }

theorem inactive_only_reactivated_witness :
    (wProdC8.runOps [ProdOp.setQuantityOp 9, ProdOp.buyOp 2]).active = false
  ∧ (wProdC8.activate).active = true :=
  ⟨(inactive_only_reactivated_by_activate wProdC8 (by decide)).1
      [ProdOp.setQuantityOp 9, ProdOp.buyOp 2] (by decide) rfl,
   (inactive_only_reactivated_by_activate wProdC8 (by decide)).2.1⟩

lemma promoTotal_deactivate (p : Product) (q : ℤ) :
    (p.deactivate).promoTotal q = p.promoTotal q := rfl

/-- C9: a `NonStockedProduct` purchase fails exactly when the quantity is
nonpositive (with the invalid-quantity error); the active flag is never
consulted, so even after an explicit `deactivate()` (which does make
`is_active` report false) a purchase of any positive quantity still
succeeds with the promotion-adjusted total; and no purchase mutates the
product. -/
theorem nonStocked_buy_ignores_active (p : Product) (q : ℤ)
    (hk : p.kind = ProductKind.nonStocked) :
    ((∃ e, (p.buy q).1 = Except.error e) ↔ q ≤ 0)
  ∧ (q ≤ 0 → (p.buy q).1 = Except.error ValueErr.invalidQuantity)
  ∧ (0 < q → (p.buy q).1 = Except.ok (p.promoTotal q))
  ∧ (p.deactivate).is_active = false
  ∧ (0 < q → ((p.deactivate).buy q).1 = Except.ok (p.promoTotal q)) := by
  rw [buy_of_nonStocked p q hk]
  refine ⟨⟨?_, ?_⟩, ?_, ?_, rfl, ?_⟩
  · rintro ⟨e, he⟩
    by_contra hq
    rw [if_neg hq] at he
    simp at he
  · intro hq
    exact ⟨ValueErr.invalidQuantity, by rw [if_pos hq]⟩
  · intro hq
    rw [if_pos hq]
  · intro hq
    rw [if_neg (not_le.mpr hq)]
  · intro hq
    rw [buy_of_nonStocked (p.deactivate) q hk, if_neg (not_le.mpr hq),
      promoTotal_deactivate]

def wProdC9 : Product :=
  { kind := ProductKind.nonStocked, name := "License", price := 125,
    quantity := 0, active := true, promotion := none }

theorem nonStocked_buy_ignores_active_witness :
    ((wProdC9.deactivate).buy 3).1 = Except.ok (wProdC9.promoTotal 3)
  ∧ (wProdC9.deactivate).is_active = false :=
  ⟨(nonStocked_buy_ignores_active wProdC9 3 rfl).2.2.2.2 (by decide),
   (nonStocked_buy_ignores_active wProdC9 3 rfl).2.2.2.1⟩

/-- C10: on Standard and Limited products `set_quantity(q)` is total for
every integer q (it performs no validation): it stores q as the new
quantity, deactivates exactly when q = 0, and for negative q leaves the
active flag unchanged while `get_quantity` then returns the negative
value. -/
theorem set_quantity_unconditional (p : Product) (q : ℤ)
    (hk : p.kind.isStocked = true) :
    (p.set_quantity q).get_quantity = q
  ∧ (p.set_quantity q).active = (if q = 0 then false else p.active)
  ∧ (q < 0 → (p.set_quantity q).active = p.active
        ∧ (p.set_quantity q).get_quantity = q) := by
  refine ⟨set_quantity_quantity p q hk, set_quantity_active p q hk, ?_⟩
  intro hneg
  refine ⟨?_, set_quantity_quantity p q hk⟩
  rw [set_quantity_active p q hk, if_neg (by omega)]

def wProdC10 : Product :=
  { kind := ProductKind.standard, name := "Pixel", price := 500,
    quantity := 3, active := true, promotion := none }

theorem set_quantity_unconditional_witness :
    (wProdC10.set_quantity (-2)).get_quantity = -2
  ∧ (wProdC10.set_quantity (-2)).active = wProdC10.active :=
  ⟨(set_quantity_unconditional wProdC10 (-2) (by decide)).1,
   ((set_quantity_unconditional wProdC10 (-2) (by decide)).2.2
      (by decide)).1⟩
